import Mathlib

/-!
Verification of the payment-channel server in
`bipwallet/two1/bitserv/payment_server.py`.

The development shallowly embeds the server's operations (`open`,
`receive_payment`, `close`, `redeem`, `sync`) as pure Lean functions over an
explicit database state.  External collaborators that live outside the file
under verification — the wallet adapter, the blockchain adapter and the
cryptographic primitives of the `two1.bitcoin` library — are abstracted into
an `Env` record of function parameters, exactly as the source consumes them
through `self._wallet` and `self._blockchain`.  The SQLite store
(`bitserv/models.py`) and the redeem-script codec
(`channels/statemachine.py`) are not part of the sources at hand; they are
modelled from the specification's store and script contracts and marked as
such in their doc comments.
-/

namespace Bitserv

/-- Channel lifecycle states, from `ChannelSQLite3`:
CONFIRMING → READY → CLOSED. -/
inductive ChannelState
  | confirming
  | ready
  | closed
deriving DecidableEq

/-- A Bitcoin scriptSig stack item: either a data push or an opcode byte.
`OP_1` and `OP_TRUE` are the same opcode byte (0x51 = 81), which is why the
source's two accepted templates coincide at the byte level. -/
inductive StackItem
  | item (b : List Nat)
  | op (code : Nat)
deriving DecidableEq

/-- The OP_1 opcode used as the merchant-signature placeholder. -/
def opOne : StackItem := .op 81

/-- Modelled from the spec: `PaymentChannelRedeemScript` of
`two1/channels/statemachine.py` (not under src/) carries the three semantic
fields merchant key, customer key and CLTV expiration.  Keys are abstracted
to naturals. -/
structure PaymentChannelRedeemScript where
  merchant_public_key : Nat
  customer_public_key : Nat
  expiration_time : Nat
deriving DecidableEq

/-- Modelled from the spec: the deterministic serialization of a redeem
script.  The spec requires re-encoding the same three fields to be
byte-identical, so any injective encoding is faithful; we use the
three-field list. -/
def PaymentChannelRedeemScript.toBytes (rs : PaymentChannelRedeemScript) : List Nat :=
  [rs.merchant_public_key, rs.customer_public_key, rs.expiration_time]

/-- Modelled from the spec: parsing a redeem script from bytes, the partial
inverse of `toBytes`; anything else fails (the source raises `ValueError`). -/
def PaymentChannelRedeemScript.from_bytes : List Nat → Option PaymentChannelRedeemScript
  | [m, c, e] => some ⟨m, c, e⟩
  | _ => none

/-- Modelled from the spec: a DER-encoded ECDSA signature from
`two1.bitcoin` (not under src/).  We keep the raw DER bytes; `to_der`
re-serializes them unchanged. -/
structure Sig where
  der : List Nat
deriving DecidableEq

/-- Modelled from the spec: `Signature.from_der` accepts byte strings that
begin with the DER SEQUENCE tag 0x30 and raises `ValueError` otherwise;
we model the failure as `none`. -/
def Sig.from_der (b : List Nat) : Option Sig :=
  if b.head? = some 48 then some ⟨b⟩ else none

/-- Re-serialize a parsed signature (`Signature.to_der`). -/
def Sig.to_der (s : Sig) : List Nat := s.der

/-- A transaction output: the address (hash160) it pays and its value in
satoshis. -/
structure TxOutput where
  payee : Nat
  value : Nat
deriving DecidableEq

/-- A transaction input; only its scriptSig matters at the channel
boundary. -/
structure TxInput where
  script : List StackItem
deriving DecidableEq

/-- A transaction.  `txid` stands for `str(tx.hash)`; serialization
(`to_hex`) is deterministic and injective, so the source's byte-for-byte
`to_hex` comparisons are modelled as structural equality of `Tx`. -/
structure Tx where
  txid : String
  inputs : List TxInput
  outputs : List TxOutput
deriving DecidableEq

/-- `Transaction.output_index_for_address`: index of the first output paying
the given address, if any. -/
def Tx.output_index_for_address (t : Tx) (addr : Nat) : Option Nat :=
  t.outputs.findIdx? (fun o => o.payee = addr)

/-- Replace the scriptSig of input 0 (`payment_tx_copy.inputs[0].script = ...`). -/
def setInputScript (t : Tx) (s : List StackItem) : Tx :=
  match t.inputs with
  | [] => t
  | inp :: rest => { t with inputs := { inp with script := s } :: rest }

/-- Modelled from the spec: a Channel row of the store (`bitserv/models.py`
is not under src/), one per deposit transaction. -/
structure Channel where
  deposit_txid : String
  deposit_tx : Tx
  merchant_pubkey : Nat
  amount : Nat
  expires_at : Nat
  state : ChannelState
  payment_tx : Option Tx
  last_payment_amount : Nat
deriving DecidableEq

/-- Modelled from the spec: a Payment row of the store, one per accepted
incremental payment; `amount` is the delta over the previous payment. -/
structure Payment where
  payment_txid : String
  deposit_txid : String
  payment_tx : Tx
  amount : Nat
  redeemed : Bool
deriving DecidableEq

/-- The persistent store: the two relations of the data model. -/
structure Db where
  channels : List Channel
  payments : List Payment
deriving DecidableEq

/-- `Channel.lookup(deposit_txid)`: first row with the given primary key. -/
def Db.pcLookup (db : Db) (txid : String) : Option Channel :=
  db.channels.find? (fun c => c.deposit_txid = txid)

/-- `Channel.update_state(deposit_txid, new_state)`: modelled from the spec
as a store write; rows previously read by callers are snapshots and are not
mutated by this operation. -/
def Db.updateState (db : Db) (txid : String) (s : ChannelState) : Db :=
  { db with channels :=
      db.channels.map (fun c => if c.deposit_txid = txid then { c with state := s } else c) }

/-- `Channel.update_payment(deposit_txid, payment_tx, last_payment_amount)`. -/
def Db.updatePayment (db : Db) (txid : String) (tx : Tx) (amt : Nat) : Db :=
  { db with channels :=
      db.channels.map (fun c =>
        if c.deposit_txid = txid then { c with payment_tx := some tx, last_payment_amount := amt }
        else c) }

/-- `Channel.create(deposit_tx, merchant_pubkey, amount, expires_at)`:
modelled from the spec; the new row starts CONFIRMING with no payment and
`last_payment_amount = 0`.  (`open` checks for a pre-existing row before
calling this.) -/
def Db.pcCreate (db : Db) (deposit_tx : Tx) (mpk : Nat) (amount expires : Nat) : Db :=
  { db with channels := db.channels ++
      [{ deposit_txid := deposit_tx.txid, deposit_tx := deposit_tx,
         merchant_pubkey := mpk, amount := amount, expires_at := expires,
         state := .confirming, payment_tx := none, last_payment_amount := 0 }] }

/-- `Payment.create(deposit_txid, payment_tx, amount)`: inserts an
unredeemed row keyed by the payment txid. -/
def Db.pmtCreate (db : Db) (deposit_txid : String) (tx : Tx) (amt : Nat) : Db :=
  { db with payments := db.payments ++
      [{ payment_txid := tx.txid, deposit_txid := deposit_txid,
         payment_tx := tx, amount := amt, redeemed := false }] }

/-- `Payment.lookup(payment_txid)`. -/
def Db.pmtLookup (db : Db) (ptxid : String) : Option Payment :=
  db.payments.find? (fun p => p.payment_txid = ptxid)

/-- `Payment.redeem(payment_txid)`: modelled from the spec's atomic
test-and-set — returns true iff this call flipped `redeemed` from false to
true; false if already redeemed or missing. -/
def Db.pmtRedeem (db : Db) (ptxid : String) : Bool × Db :=
  match db.pmtLookup ptxid with
  | none => (false, db)
  | some p =>
    if p.redeemed then (false, db)
    else (true,
      { db with payments := db.payments.map (fun q =>
          if q.payment_txid = ptxid then { q with redeemed := true } else q) })

/-- `PaymentServer.DUST_LIMIT` (payment_server.py line 89). -/
def DUST_LIMIT : Nat := 3000

/-- `PaymentServer.EXP_TIME_BUFFER` = three days (payment_server.py line 97). -/
def EXP_TIME_BUFFER : Nat := 3 * 24 * 3600

/-- `PaymentServer.PROTOCOL_VERSION` (payment_server.py line 100). -/
def PROTOCOL_VERSION : Nat := 2

/-- The external collaborators the server consumes: wallet adapter,
blockchain adapter and the `two1.bitcoin` cryptographic primitives, plus
the two deployment constants imported from package settings
(`TWO1_CHANNELS_FEE`, `TWO1_CHANNELS_MIN_DURATION`). -/
structure Env where
  validatePublicKey : Nat → Bool
  verifyNoHash : Nat → List Nat → Sig → Bool
  verifyHash : Nat → List Nat → Sig → Bool
  sighash : Tx → PaymentChannelRedeemScript → List Nat
  hash160pk : Nat → Nat
  hash160script : PaymentChannelRedeemScript → Nat
  createUnsigned : Tx → PaymentChannelRedeemScript → Nat → Int → Tx
  signHalf : Tx → PaymentChannelRedeemScript → Tx
  checkConfirmed : String → Bool
  lookupSpend : String → Option Nat → Option String
  minTxFee : Nat
  minExpTime : Nat

/-- The distinguishable error outcomes of a server operation.  `pyError`
records an exception that escapes the server uncaught (IndexError,
ValueError, binascii.Error, ...), as opposed to the five PaymentServerError
kinds it raises deliberately. -/
inductive PSErr
  | badTransaction (msg : String)
  | verificationError (msg : String)
  | notFound (msg : String)
  | channelClosed (msg : String)
  | redeemPayment (msg : String)
  | pyError (kind : String)
deriving DecidableEq

/-- ASCII bytes of a string (`deposit_txid.encode()`). -/
def strBytes (s : String) : List Nat := s.data.map Char.toNat

/-- Python 3 `codecs.decode(s, 'hex_codec')` digit values. -/
def hexDigitVal (c : Char) : Option Nat :=
  if '0' ≤ c ∧ c ≤ '9' then some (c.toNat - 48)
  else if 'a' ≤ c ∧ c ≤ 'f' then some (c.toNat - 87)
  else if 'A' ≤ c ∧ c ≤ 'F' then some (c.toNat - 55)
  else none

/-- Pair up hex digits into bytes; fails on odd length or a non-hex digit. -/
def hexPairsToBytes : List Char → Option (List Nat)
  | [] => some []
  | [_] => none
  | c1 :: c2 :: rest =>
    match hexDigitVal c1, hexDigitVal c2, hexPairsToBytes rest with
    | some h, some l, some bs => some ((16 * h + l) :: bs)
    | _, _, _ => none

/-- Python 3 semantics of `codecs.decode(s, 'hex_codec')` on a `str`
argument: returns the bytes for well-formed even-length hex, and raises
`binascii.Error` — a subclass of `ValueError`, not of `TypeError` — on a
non-hexadecimal digit or odd length. -/
def hexDecode (s : String) : Option (List Nat) :=
  hexPairsToBytes s.data

/-- `Script.validate_template(script, [bytes, 'OP_1'/'OP_TRUE', bytes])`:
exactly three stack items with the explicit placeholder push in the middle
(OP_1 and OP_TRUE are the same opcode byte). -/
def validTemplate : List StackItem → Bool
  | [.item _, .op 81, .item _] => true
  | _ => false

/-- Lines 234-255 of `receive_payment`: extract the redeem script from the
last stack item, check the merchant key, verify the customer DER signature
over the SIGHASH_ALL digest, and check the scriptSig shape. -/
def checkScript (env : Env) (mpk : Nat) (ptx : Tx) :
    Except PSErr (PaymentChannelRedeemScript × Sig) :=
  match ptx.inputs.head? with
  | none => .error (.pyError "IndexError")
  | some inp0 =>
  match inp0.script.getLast? with
  | none => .error (.pyError "IndexError")
  | some (.op _) => .error (.pyError "ValueError")
  | some (.item rsBytes) =>
  match PaymentChannelRedeemScript.from_bytes rsBytes with
  | none => .error (.pyError "ValueError")
  | some rs =>
  if rs.merchant_public_key ≠ mpk then
    .error (.badTransaction "Invalid merchant pubkey.")
  else
  match inp0.script.head? with
  | none => .error (.pyError "IndexError")
  | some (.op _) => .error (.pyError "TypeError")
  | some (.item sigBytes) =>
  match Sig.from_der sigBytes.dropLast with
  | none => .error (.pyError "ValueError")
  | some sig =>
  if ¬ env.verifyNoHash rs.customer_public_key (env.sighash ptx rs) sig then
    .error (.badTransaction "Invalid payment signature.")
  else if inp0.script.length ≠ 3 then
    .error (.badTransaction "Invalid payment channel transaction structure.")
  else if ¬ validTemplate inp0.script then
    .error (.badTransaction "Invalid payment channel transaction structure.")
  else .ok (rs, sig)

/-- Lines 257-265 of `receive_payment`: the channel state gate.  A
CONFIRMING channel whose deposit the blockchain reports confirmed is
promoted to READY in the store before validation continues. -/
def stateGate (env : Env) (db : Db) (channel : Channel) : Except PSErr Unit × Db :=
  match channel.state with
  | .confirming =>
    if env.checkConfirmed channel.deposit_txid then
      (.ok (), db.updateState channel.deposit_txid .ready)
    else (.error (.channelClosed "Payment channel not ready."), db)
  | .closed => (.error (.channelClosed "Payment channel closed."), db)
  | .ready => (.ok (), db)

/-- Lines 272-282 of `receive_payment`: every output must meet the dust
limit, with the error message depending on whether the first violating
output is the merchant output (`midx`). -/
def dustCheck (midx : Nat) : Nat → List TxOutput → Option PSErr
  | _, [] => none
  | i, o :: rest =>
    if o.value < DUST_LIMIT then
      if i = midx then
        some (.badTransaction ("Initial payment must be greater than " ++ toString DUST_LIMIT ++ "."))
      else
        some (.badTransaction "Payment channel balance is not large enough to make payment.")
    else dustCheck midx (i + 1) rest

/-- Lines 267-315 of `receive_payment`: the post-gate validation — merchant
output present, dust limits, strict monotonicity over
`last_payment_amount`, fee adequacy, redeem-script reconstruction and
byte-for-byte transaction reconstruction.  Returns the new merchant amount
and the reconstructed transaction that gets persisted. -/
def checkPayment (env : Env) (channel : Channel) (ptx : Tx)
    (rs : PaymentChannelRedeemScript) (sig : Sig) : Except PSErr (Nat × Tx) :=
  match ptx.output_index_for_address (env.hash160pk channel.merchant_pubkey) with
  | none => .error (.badTransaction "Payment must pay to merchant pubkey.")
  | some index =>
  match dustCheck index 0 ptx.outputs with
  | some e => .error e
  | none =>
  if (ptx.outputs.getD index ⟨0, 0⟩).value ≤ channel.last_payment_amount then
    .error (.badTransaction "Payment must be greater than 0.")
  else if (channel.amount : Int) - (ptx.outputs.map (fun o => (o.value : Int))).sum <
      (env.minTxFee : Int) then
    .error (.badTransaction "Payment must have adequate fees.")
  else if rs ≠ (⟨channel.merchant_pubkey, rs.customer_public_key, channel.expires_at⟩ :
      PaymentChannelRedeemScript) then
    .error (.badTransaction "Invalid redeem script.")
  else if ptx ≠ setInputScript (env.createUnsigned channel.deposit_tx rs
        ((ptx.outputs.getD index ⟨0, 0⟩).value)
        ((channel.amount : Int) - (ptx.outputs.map (fun o => (o.value : Int))).sum))
      [.item (sig.to_der ++ [1]), opOne, .item rs.toBytes] then
    .error (.badTransaction "Invalid payment channel transaction structure.")
  else .ok ((ptx.outputs.getD index ⟨0, 0⟩).value,
    setInputScript (env.createUnsigned channel.deposit_tx rs
        ((ptx.outputs.getD index ⟨0, 0⟩).value)
        ((channel.amount : Int) - (ptx.outputs.map (fun o => (o.value : Int))).sum))
      [.item (sig.to_der ++ [1]), opOne, .item rs.toBytes])

/-- `PaymentServer.receive_payment`: the full validation pipeline, threading
the store.  On success the channel's payment is updated and a Payment row
with the delta amount is created (lines 317-319). -/
def receive_payment (env : Env) (db : Db) (deposit_txid : String) (payment_tx : Tx) :
    Except PSErr String × Db :=
  match db.pcLookup deposit_txid with
  | none => (.error (.notFound "Related channel not found."), db)
  | some channel =>
    match checkScript env channel.merchant_pubkey payment_tx with
    | .error e => (.error e, db)
    | .ok (rs, sig) =>
      match stateGate env db channel with
      | (.error e, db1) => (.error e, db1)
      | (.ok _, db1) =>
        match checkPayment env channel payment_tx rs sig with
        | .error e => (.error e, db1)
        | .ok (v, txCopy) =>
          (.ok txCopy.txid,
           (db1.updatePayment deposit_txid txCopy v).pmtCreate deposit_txid txCopy
             (v - channel.last_payment_amount))

/-- `PaymentServer.open`: validate the deposit and redeem script, check the
locktime horizon, and create the channel (READY immediately under
zeroconf). -/
def openChannel (env : Env) (now : Nat) (zeroconf : Bool) (db : Db)
    (deposit_tx : Tx) (redeem_script : PaymentChannelRedeemScript) :
    Except PSErr String × Db :=
  match deposit_tx.output_index_for_address (env.hash160script redeem_script) with
  | none => (.error (.badTransaction "Deposit does not pay to the provided script hash."), db)
  | some output_index =>
    if ¬ env.validatePublicKey redeem_script.merchant_public_key then
      (.error (.badTransaction "Public key does not belong to the merchant."), db)
    else if (db.pcLookup deposit_tx.txid).isSome then
      (.error (.badTransaction "That deposit has already been used to create a channel."), db)
    else if (redeem_script.expiration_time : Int) < (now : Int) + (env.minExpTime : Int) - 1 then
      (.error (.verificationError "Transaction locktime must be further in the future."), db)
    else
      (.ok deposit_tx.txid,
       if zeroconf then
         (db.pcCreate deposit_tx redeem_script.merchant_public_key
           ((deposit_tx.outputs.getD output_index ⟨0, 0⟩).value)
           redeem_script.expiration_time).updateState deposit_tx.txid .ready
       else
         db.pcCreate deposit_tx redeem_script.merchant_public_key
           ((deposit_tx.outputs.getD output_index ⟨0, 0⟩).value)
           redeem_script.expiration_time)

/-- Extract the redeem script from the last scriptSig stack item of a
stored payment transaction (used by `close` and `sync`). -/
def extractRedeemScript (t : Tx) : Option PaymentChannelRedeemScript :=
  match t.inputs.head? with
  | none => none
  | some inp =>
    match inp.script.getLast? with
    | some (.item b) => PaymentChannelRedeemScript.from_bytes b
    | _ => none

/-- Lines 357-361 of `close`: hex-decode then DER-parse the client's
signature; the `except` clause of the source catches **only** `TypeError`,
so the `binascii.Error` raised by Python 3's hex codec on garbled hex and
the `ValueError` raised by a failed DER parse both escape uncaught. -/
def decodeCloseSignature (s : String) : Except PSErr Sig :=
  match hexDecode s with
  | none => .error (.pyError "binascii.Error")
  | some bs =>
    match Sig.from_der bs with
    | none => .error (.pyError "ValueError")
    | some sig => .ok sig

/-- `PaymentServer.close`: authenticate a proof-of-possession signature
over the ASCII hex deposit txid, co-sign and broadcast the stored payment,
and mark the channel CLOSED.  The third component lists the transactions
handed to `blockchain.broadcast_tx`. -/
def close (env : Env) (db : Db) (deposit_txid : String) (signature_hex : String) :
    Except PSErr String × Db × List Tx :=
  match db.pcLookup deposit_txid with
  | none => (.error (.notFound "Related channel not found."), db, [])
  | some channel =>
  match decodeCloseSignature signature_hex with
  | .error e => (.error e, db, [])
  | .ok sig =>
  match channel.payment_tx with
  | none => (.error (.badTransaction "No payments made in channel."), db, [])
  | some payment_tx =>
  match extractRedeemScript payment_tx with
  | none => (.error (.pyError "ValueError"), db, [])
  | some redeem_script =>
  if ¬ env.verifyHash redeem_script.customer_public_key (strBytes deposit_txid) sig then
    (.error (.verificationError "Invalid signature."), db, [])
  else
    (.ok (env.signHalf payment_tx redeem_script).txid,
     db.updateState deposit_txid .closed, [env.signHalf payment_tx redeem_script])

/-- `PaymentServer.redeem`: look up the payment and its channel, require
the channel READY, then atomically test-and-set the redeemed flag. -/
def redeem (db : Db) (payment_txid : String) : Except PSErr Nat × Db :=
  match db.pmtLookup payment_txid with
  | none => (.error (.notFound "Payment not found."), db)
  | some payment =>
  match db.pcLookup payment.deposit_txid with
  | none => (.error (.notFound "Channel not found."), db)
  | some channel =>
  match channel.state with
  | .confirming => (.error (.channelClosed "Payment channel not ready."), db)
  | .closed => (.error (.channelClosed "Payment channel closed."), db)
  | .ready =>
    if (db.pmtRedeem payment_txid).1 then (.ok payment.amount, (db.pmtRedeem payment_txid).2)
    else (.error (.redeemPayment "Payment already redeemed."), (db.pmtRedeem payment_txid).2)

/-- Lines 458-465 of `sync`: the pre-expiry broadcast.  Note the guard
reads `pc.state`, the in-memory snapshot taken before this sync step, not
the store's current state. -/
def syncExpiry (env : Env) (now : Nat) (db : Db) (pc : Channel) :
    Db × List Tx × Option PSErr :=
  if pc.state ≠ .closed then
    if now + EXP_TIME_BUFFER > pc.expires_at then
      match pc.payment_tx with
      | some ptx =>
        match extractRedeemScript ptx with
        | none => (db, [], some (.pyError "ValueError"))
        | some rs =>
          let signed := env.signHalf ptx rs
          ((db.updatePayment pc.deposit_txid signed pc.last_payment_amount).updateState
            pc.deposit_txid .closed, [signed], none)
      | none => (db, [], none)
    else (db, [], none)
  else (db, [], none)

/-- Lines 446-448 of `sync`: promote a CONFIRMING channel whose deposit is
confirmed to READY (guard on the snapshot `pc`, write to the store). -/
def syncPromote (env : Env) (db : Db) (pc : Channel) : Db :=
  if pc.state = .confirming ∧ env.checkConfirmed pc.deposit_txid then
    db.updateState pc.deposit_txid .ready
  else db

/-- Lines 450-456 of `sync`: mark the channel CLOSED when some transaction
already spends the deposit UTXO. -/
def syncSpendCheck (env : Env) (db : Db) (pc : Channel)
    (rs : PaymentChannelRedeemScript) : Db :=
  if (env.lookupSpend pc.deposit_txid
      (pc.deposit_tx.output_index_for_address (env.hash160script rs))).isSome then
    db.updateState pc.deposit_txid .closed
  else db

/-- One iteration of the `sync` loop body (lines 440-465) for the snapshot
row `pc`: skip CLOSED, promote a confirmed CONFIRMING deposit, close on a
detected foreign spend, then the pre-expiry broadcast.  All guards read the
snapshot `pc`, while writes go to the store. -/
def syncOne (env : Env) (now : Nat) (db : Db) (pc : Channel) :
    Db × List Tx × Option PSErr :=
  if pc.state = .closed then (db, [], none)
  else
    match pc.payment_tx with
    | some ptx =>
      if pc.state = .confirming ∨ pc.state = .ready then
        match extractRedeemScript ptx with
        | none => (syncPromote env db pc, [], some (.pyError "ValueError"))
        | some rs =>
          syncExpiry env now (syncSpendCheck env (syncPromote env db pc) pc rs) pc
      else syncExpiry env now (syncPromote env db pc) pc
    | none => syncExpiry env now (syncPromote env db pc) pc

/-- Fold of the `sync` loop over the snapshot list of channels; an uncaught
exception aborts the remaining iterations (the source has no per-channel
error isolation) but the store writes already made persist. -/
def syncAll (env : Env) (now : Nat) : Db → List Channel → Db × List Tx × Option PSErr
  | db, [] => (db, [], none)
  | db, pc :: rest =>
    match syncOne env now db pc with
    | (db1, bs, some e) => (db1, bs, some e)
    | (db1, bs, none) =>
      match syncAll env now db1 rest with
      | (db2, bs2, r) => (db2, bs ++ bs2, r)

/-- `PaymentServer.sync`: enumerate all channels once and run the loop body
on each snapshot row. -/
def sync (env : Env) (now : Nat) (db : Db) : Db × List Tx × Option PSErr :=
  syncAll env now db db.channels

end Bitserv

namespace Bitserv

/-! ### Store lemmas -/

theorem find?_map_txid_preserving (f : Channel → Channel)
    (hf : ∀ c, (f c).deposit_txid = c.deposit_txid) (t : String) :
    ∀ l : List Channel,
      (l.map f).find? (fun c => c.deposit_txid = t) =
        (l.find? (fun c => c.deposit_txid = t)).map f
  | [] => rfl
  | c :: rest => by
    by_cases h : c.deposit_txid = t
    · rw [List.map_cons, List.find?_cons_of_pos _ (by simp [hf, h]),
        List.find?_cons_of_pos _ (by simp [h])]
      rfl
    · rw [List.map_cons, List.find?_cons_of_neg _ (by simp [hf, h]),
        List.find?_cons_of_neg _ (by simp [h])]
      exact find?_map_txid_preserving f hf t rest

theorem pcLookup_updateState (db : Db) (t t' : String) (s : ChannelState) :
    (db.updateState t s).pcLookup t' =
      (db.pcLookup t').map (fun c => if c.deposit_txid = t then { c with state := s } else c) := by
  unfold Db.pcLookup Db.updateState
  exact find?_map_txid_preserving _ (fun c => by by_cases h : c.deposit_txid = t <;> simp [h]) t' _

theorem pcLookup_updatePayment (db : Db) (t t' : String) (tx : Tx) (a : Nat) :
    (db.updatePayment t tx a).pcLookup t' =
      (db.pcLookup t').map (fun c =>
        if c.deposit_txid = t then { c with payment_tx := some tx, last_payment_amount := a }
        else c) := by
  unfold Db.pcLookup Db.updatePayment
  exact find?_map_txid_preserving _ (fun c => by by_cases h : c.deposit_txid = t <;> simp [h]) t' _

theorem pcLookup_txid (db : Db) (t : String) (c : Channel) (h : db.pcLookup t = some c) :
    c.deposit_txid = t := by
  have := List.find?_some h
  simpa using this

theorem updateState_payments (db : Db) (t : String) (s : ChannelState) :
    (db.updateState t s).payments = db.payments := rfl

theorem updatePayment_payments (db : Db) (t : String) (tx : Tx) (a : Nat) :
    (db.updatePayment t tx a).payments = db.payments := rfl

theorem pmtCreate_channels (db : Db) (t : String) (tx : Tx) (a : Nat) :
    (db.pmtCreate t tx a).channels = db.channels := rfl

theorem pcLookup_pmtCreate (db : Db) (t t' : String) (tx : Tx) (a : Nat) :
    (db.pmtCreate t tx a).pcLookup t' = db.pcLookup t' := rfl

/-! ### The state gate, dust check and pipeline characterizations -/

theorem stateGate_cases (env : Env) (db : Db) (ch : Channel) :
    ((stateGate env db ch).1 = .ok () ∧
      (stateGate env db ch).2 = db ∧ ch.state ≠ .confirming) ∨
    ((stateGate env db ch).1 = .ok () ∧ ch.state = .confirming ∧
      (stateGate env db ch).2 = db.updateState ch.deposit_txid .ready) ∨
    ((∃ e, (stateGate env db ch).1 = .error e) ∧ (stateGate env db ch).2 = db) := by
  cases h : ch.state with
  | confirming =>
    by_cases hc : env.checkConfirmed ch.deposit_txid
    · exact Or.inr (Or.inl ⟨by simp [stateGate, h, hc], rfl, by simp [stateGate, h, hc]⟩)
    · exact Or.inr (Or.inr ⟨⟨.channelClosed "Payment channel not ready.",
        by simp [stateGate, h, hc]⟩, by simp [stateGate, h, hc]⟩)
  | ready =>
    exact Or.inl ⟨by simp [stateGate, h], by simp [stateGate, h], by simp [h]⟩
  | closed =>
    exact Or.inr (Or.inr ⟨⟨.channelClosed "Payment channel closed.",
      by simp [stateGate, h]⟩, by simp [stateGate, h]⟩)

theorem stateGate_db (env : Env) (db : Db) (ch : Channel) :
    (stateGate env db ch).2 = db ∨
      (ch.state = .confirming ∧
        (stateGate env db ch).2 = db.updateState ch.deposit_txid .ready) := by
  rcases stateGate_cases env db ch with ⟨_, h, _⟩ | ⟨_, hs, h⟩ | ⟨_, h⟩
  · exact Or.inl h
  · exact Or.inr ⟨hs, h⟩
  · exact Or.inl h

theorem dustCheck_eq_findIdx (midx : Nat) : ∀ (n : Nat) (outs : List TxOutput),
    dustCheck midx n outs =
      (List.findIdx? (fun o => o.value < DUST_LIMIT) outs n).map (fun k =>
        if k = midx then
          .badTransaction ("Initial payment must be greater than " ++ toString DUST_LIMIT ++ ".")
        else .badTransaction "Payment channel balance is not large enough to make payment.")
  | _, [] => rfl
  | n, o :: rest => by
    by_cases h : o.value < DUST_LIMIT
    · simp only [dustCheck, if_pos h, List.findIdx?_cons, decide_eq_true_eq, Option.map]
      split <;> rfl
    · simp only [dustCheck, if_neg h, List.findIdx?_cons, decide_eq_true_eq]
      exact dustCheck_eq_findIdx midx (n + 1) rest

end Bitserv

namespace Bitserv

/-- On any error outcome, `receive_payment` has written nothing to the
payment table, and the only channel write it may have performed is the
CONFIRMING → READY promotion of the state gate. -/
theorem receive_payment_error_db (env : Env) (db : Db) (t : String) (ptx : Tx) (e : PSErr)
    (h : (receive_payment env db t ptx).1 = .error e) :
    ((receive_payment env db t ptx).2).payments = db.payments ∧
    ((receive_payment env db t ptx).2 = db ∨
      ∃ ch, db.pcLookup t = some ch ∧ ch.state = .confirming ∧
        (receive_payment env db t ptx).2 = db.updateState t .ready) := by
  cases hch : db.pcLookup t with
  | none => constructor <;> simp [receive_payment, hch]
  | some ch =>
    have htx : ch.deposit_txid = t := pcLookup_txid db t ch hch
    cases hcs : checkScript env ch.merchant_pubkey ptx with
    | error e1 => constructor <;> simp [receive_payment, hch, hcs]
    | ok rssig =>
      obtain ⟨rs, sig⟩ := rssig
      rcases hsg : stateGate env db ch with ⟨g, db1⟩
      have hdb1 : db1 = db ∨
          ch.state = .confirming ∧ db1 = db.updateState t .ready := by
        have h2 := stateGate_db env db ch
        rw [hsg, htx] at h2
        exact h2
      have hpay : db1.payments = db.payments := by
        rcases hdb1 with h1 | ⟨_, h1⟩ <;> rw [h1] <;> rfl
      have hdisj : db1 = db ∨
          ∃ c, (some ch : Option Channel) = some c ∧ c.state = .confirming ∧
            db1 = db.updateState t .ready := by
        rcases hdb1 with h1 | ⟨hc, h1⟩
        · exact Or.inl h1
        · exact Or.inr ⟨ch, rfl, hc, h1⟩
      cases g with
      | error e2 =>
        have hr : (receive_payment env db t ptx).2 = db1 := by
          simp [receive_payment, hch, hcs, hsg]
        rw [hr]
        exact ⟨hpay, hdisj⟩
      | ok u =>
        cases hcp : checkPayment env ch ptx rs sig with
        | error e3 =>
          have hr : (receive_payment env db t ptx).2 = db1 := by
            simp [receive_payment, hch, hcs, hsg, hcp]
          rw [hr]
          exact ⟨hpay, hdisj⟩
        | ok vt =>
          exfalso
          obtain ⟨v, txC⟩ := vt
          have hr : (receive_payment env db t ptx).1 = .ok txC.txid := by
            simp [receive_payment, hch, hcs, hsg, hcp]
          rw [hr] at h
          cases h

/-- On a success outcome, `receive_payment` went through the whole
pipeline: the channel was found, the script and payment checks passed, and
the store received exactly the `update_payment` write and one new Payment
row carrying the delta amount. -/
theorem receive_payment_okE (env : Env) (db : Db) (t : String) (ptx : Tx) (pid : String)
    (h : (receive_payment env db t ptx).1 = .ok pid) :
    ∃ ch rs sig v txC,
      db.pcLookup t = some ch ∧
      checkScript env ch.merchant_pubkey ptx = .ok (rs, sig) ∧
      (stateGate env db ch).1 = .ok () ∧
      checkPayment env ch ptx rs sig = .ok (v, txC) ∧
      pid = txC.txid ∧
      (receive_payment env db t ptx).2 =
        (((stateGate env db ch).2).updatePayment t txC v).pmtCreate t txC
          (v - ch.last_payment_amount) := by
  cases hch : db.pcLookup t with
  | none => simp [receive_payment, hch] at h
  | some ch =>
    cases hcs : checkScript env ch.merchant_pubkey ptx with
    | error e1 => simp [receive_payment, hch, hcs] at h
    | ok rssig =>
      obtain ⟨rs, sig⟩ := rssig
      rcases hsg : stateGate env db ch with ⟨g, db1⟩
      cases g with
      | error e2 => simp [receive_payment, hch, hcs, hsg] at h
      | ok u =>
        cases hcp : checkPayment env ch ptx rs sig with
        | error e3 => simp [receive_payment, hch, hcs, hsg, hcp] at h
        | ok vt =>
          obtain ⟨v, txC⟩ := vt
          refine ⟨ch, rs, sig, v, txC, rfl, hcs, by rw [hsg], hcp, ?_, ?_⟩
          · have hr : (receive_payment env db t ptx).1 = .ok txC.txid := by
              simp [receive_payment, hch, hcs, hsg, hcp]
            rw [hr] at h
            injection h with h1
            exact h1.symm
          · simp [receive_payment, hch, hcs, hsg, hcp]

/-- A successful `checkPayment` pins the returned amount to the value of
the merchant-paying output and certifies strict monotonicity over the
channel's `last_payment_amount`. -/
theorem checkPayment_okE (env : Env) (ch : Channel) (ptx : Tx)
    (rs : PaymentChannelRedeemScript) (sig : Sig) (v : Nat) (txC : Tx)
    (h : checkPayment env ch ptx rs sig = .ok (v, txC)) :
    ∃ i, ptx.output_index_for_address (env.hash160pk ch.merchant_pubkey) = some i ∧
      v = (ptx.outputs.getD i ⟨0, 0⟩).value ∧ ch.last_payment_amount < v := by
  unfold checkPayment at h
  split at h
  · cases h
  · rename_i i hidx
    split at h
    · cases h
    · rename_i hd
      by_cases hle : (ptx.outputs.getD i ⟨0, 0⟩).value ≤ ch.last_payment_amount
      · rw [if_pos hle] at h
        cases h
      · rw [if_neg hle] at h
        split at h
        · cases h
        · split at h
          · cases h
          · split at h
            · cases h
            · injection h with h1
              rw [Prod.mk.injEq] at h1
              obtain ⟨hv, htc⟩ := h1
              exact ⟨i, hidx, hv.symm, by omega⟩

end Bitserv

namespace Bitserv

/-- Total of the Payment-row delta amounts recorded for one channel. -/
def sumPaymentsFor (db : Db) (t : String) : Nat :=
  ((db.payments.filter (fun p => p.deposit_txid = t)).map Payment.amount).sum

/-- The channel's `last_payment_amount` (0 if the channel does not exist). -/
def lastPaymentFor (db : Db) (t : String) : Nat :=
  match db.pcLookup t with
  | some ch => ch.last_payment_amount
  | none => 0

/-- A sequence of `receive_payment` calls against one channel, keeping the
store of each call for the next. -/
def runPayments (env : Env) (db : Db) (t : String) : List Tx → Db
  | [] => db
  | ptx :: rest => runPayments env (receive_payment env db t ptx).2 t rest

/-- One `receive_payment` call — successful or not — preserves the invariant
Σ Payment.amount = last_payment_amount of its channel. -/
theorem receive_payment_sum_invariant (env : Env) (db : Db) (t : String) (ptx : Tx)
    (h : sumPaymentsFor db t = lastPaymentFor db t) :
    sumPaymentsFor (receive_payment env db t ptx).2 t =
      lastPaymentFor (receive_payment env db t ptx).2 t := by
  cases hr : (receive_payment env db t ptx).1 with
  | error e =>
    obtain ⟨hpay, hdb⟩ := receive_payment_error_db env db t ptx e hr
    rcases hdb with h1 | ⟨ch, hch, hcf, h1⟩
    · rw [h1]
      exact h
    · rw [h1]
      have hlast : lastPaymentFor (db.updateState t .ready) t = lastPaymentFor db t := by
        unfold lastPaymentFor
        rw [pcLookup_updateState]
        cases hc2 : db.pcLookup t with
        | none => rfl
        | some c => simp [pcLookup_txid db t c hc2]
      rw [hlast]
      exact h
  | ok pid =>
    obtain ⟨ch, rs, sig, v, txC, hch, hcs, hg, hcp, hpid, hdb⟩ :=
      receive_payment_okE env db t ptx pid hr
    obtain ⟨i, hi, hv, hlt⟩ := checkPayment_okE env ch ptx rs sig v txC hcp
    have htx : ch.deposit_txid = t := pcLookup_txid db t ch hch
    have hgdb := stateGate_db env db ch
    rw [htx] at hgdb
    have hpg : ((stateGate env db ch).2).payments = db.payments := by
      rcases hgdb with h1 | ⟨_, h1⟩ <;> rw [h1] <;> rfl
    have hlch : lastPaymentFor db t = ch.last_payment_amount := by
      unfold lastPaymentFor
      rw [hch]
    have hglk : ((stateGate env db ch).2).pcLookup t = some ch ∨
        ((stateGate env db ch).2).pcLookup t = some { ch with state := .ready } := by
      rcases hgdb with h1 | ⟨_, h1⟩
      · rw [h1]
        exact Or.inl hch
      · rw [h1, pcLookup_updateState, hch]
        simp [htx]
    rw [hdb]
    have hsum : sumPaymentsFor
        ((((stateGate env db ch).2).updatePayment t txC v).pmtCreate t txC
          (v - ch.last_payment_amount)) t
        = sumPaymentsFor db t + (v - ch.last_payment_amount) := by
      have hpp : ((((stateGate env db ch).2).updatePayment t txC v).pmtCreate t txC
          (v - ch.last_payment_amount)).payments =
          db.payments ++ [⟨txC.txid, t, txC, v - ch.last_payment_amount, false⟩] := by
        simp [Db.pmtCreate, Db.updatePayment, hpg]
      unfold sumPaymentsFor
      rw [hpp, List.filter_append]
      simp
    have hlastv : lastPaymentFor
        ((((stateGate env db ch).2).updatePayment t txC v).pmtCreate t txC
          (v - ch.last_payment_amount)) t = v := by
      unfold lastPaymentFor
      rw [pcLookup_pmtCreate, pcLookup_updatePayment]
      rcases hglk with h1 | h1 <;> rw [h1] <;> simp [htx]
    rw [hsum, hlastv, h, hlch]
    omega

end Bitserv

namespace Bitserv

/-! ### State monotonicity machinery -/

/-- Numeric rank of a channel state along CONFIRMING → READY → CLOSED. -/
def rank : ChannelState → Nat
  | .confirming => 0
  | .ready => 1
  | .closed => 2

/-- Every channel visible before an operation is still visible afterwards,
with a state that has not moved backwards. -/
def dbMono (db db' : Db) : Prop :=
  ∀ t c, db.pcLookup t = some c →
    ∃ c', db'.pcLookup t = some c' ∧ rank c.state ≤ rank c'.state

theorem dbMono_refl (db : Db) : dbMono db db := fun _ c h => ⟨c, h, le_refl _⟩

theorem dbMono_trans {a b c : Db} (h1 : dbMono a b) (h2 : dbMono b c) : dbMono a c := by
  intro t x hx
  obtain ⟨y, hy, r1⟩ := h1 t x hx
  obtain ⟨z, hz, r2⟩ := h2 t y hy
  exact ⟨z, hz, le_trans r1 r2⟩

theorem rank_le_closed (s : ChannelState) : rank s ≤ rank .closed := by
  cases s <;> simp [rank]

theorem dbMono_updateState (db : Db) (t0 : String) (s : ChannelState)
    (h : ∀ c, db.pcLookup t0 = some c → rank c.state ≤ rank s) :
    dbMono db (db.updateState t0 s) := by
  intro t c hc
  rw [pcLookup_updateState, hc]
  refine ⟨_, rfl, ?_⟩
  by_cases ht : c.deposit_txid = t0
  · simp only [if_pos ht]
    have htt : t = t0 := (pcLookup_txid db t c hc).symm.trans ht
    exact h c (htt ▸ hc)
  · simp only [if_neg ht]
    exact le_refl _

theorem dbMono_updatePayment (db : Db) (t0 : String) (tx : Tx) (a : Nat) :
    dbMono db (db.updatePayment t0 tx a) := by
  intro t c hc
  rw [pcLookup_updatePayment, hc]
  refine ⟨_, rfl, ?_⟩
  by_cases ht : c.deposit_txid = t0 <;> simp [ht]

theorem dbMono_of_channels {db db' : Db} (h : db'.channels = db.channels) :
    dbMono db db' := by
  intro t c hc
  refine ⟨c, ?_, le_refl _⟩
  unfold Db.pcLookup at hc ⊢
  rw [h]
  exact hc

theorem find?_append_some (p : Channel → Bool) (l2 : List Channel) (c : Channel) :
    ∀ l1 : List Channel, l1.find? p = some c → (l1 ++ l2).find? p = some c
  | [], h => by cases h
  | x :: rest, h => by
    by_cases hx : p x
    · rw [List.find?_cons_of_pos _ hx] at h
      rw [List.cons_append, List.find?_cons_of_pos _ hx]
      exact h
    · rw [List.find?_cons_of_neg _ (by simp [hx])] at h
      rw [List.cons_append, List.find?_cons_of_neg _ (by simp [hx])]
      exact find?_append_some p l2 c rest h

theorem dbMono_pcCreate (db : Db) (dtx : Tx) (mpk a e : Nat) :
    dbMono db (db.pcCreate dtx mpk a e) := by
  intro t c hc
  exact ⟨c, find?_append_some _ _ c db.channels hc, le_refl _⟩

theorem pmtRedeem_channels (db : Db) (p : String) :
    ((db.pmtRedeem p).2).channels = db.channels := by
  unfold Db.pmtRedeem
  split
  · rfl
  · split
    · rfl
    · rfl

/-! ### Lookup locality of the store writes -/

theorem pcLookup_updateState_ne (db : Db) (t0 : String) (s : ChannelState) (t : String)
    (h : t ≠ t0) : (db.updateState t0 s).pcLookup t = db.pcLookup t := by
  rw [pcLookup_updateState]
  cases hc : db.pcLookup t with
  | none => rfl
  | some c => simp [pcLookup_txid db t c hc, h]

theorem pcLookup_updatePayment_ne (db : Db) (t0 : String) (tx : Tx) (a : Nat) (t : String)
    (h : t ≠ t0) : (db.updatePayment t0 tx a).pcLookup t = db.pcLookup t := by
  rw [pcLookup_updatePayment]
  cases hc : db.pcLookup t with
  | none => rfl
  | some c => simp [pcLookup_txid db t c hc, h]

end Bitserv

namespace Bitserv

/-! ### Per-operation state monotonicity -/

theorem find?_append_none (p : Channel → Bool) (l2 : List Channel) :
    ∀ l1 : List Channel, l1.find? p = none → (l1 ++ l2).find? p = l2.find? p
  | [], _ => rfl
  | x :: rest, h => by
    by_cases hx : p x
    · rw [List.find?_cons_of_pos _ hx] at h
      cases h
    · rw [List.find?_cons_of_neg _ (by simp [hx])] at h
      rw [List.cons_append, List.find?_cons_of_neg _ (by simp [hx])]
      exact find?_append_none p l2 rest h

theorem openChannel_mono (env : Env) (now : Nat) (z : Bool) (db : Db)
    (dtx : Tx) (rs : PaymentChannelRedeemScript) :
    dbMono db (openChannel env now z db dtx rs).2 := by
  unfold openChannel
  split
  · exact dbMono_refl db
  · rename_i idx hidx
    split
    · exact dbMono_refl db
    · split
      · exact dbMono_refl db
      · split
        · exact dbMono_refl db
        · rename_i hns _
          have hnone : db.pcLookup dtx.txid = none := by
            cases hl : db.pcLookup dtx.txid with
            | none => rfl
            | some c => rw [hl] at hns; simp at hns
          split
          · refine dbMono_trans
              (dbMono_pcCreate db dtx rs.merchant_public_key
                ((dtx.outputs.getD idx ⟨0, 0⟩).value) rs.expiration_time) ?_
            apply dbMono_updateState
            intro c hc
            have hc2 : (db.pcCreate dtx rs.merchant_public_key
                ((dtx.outputs.getD idx ⟨0, 0⟩).value) rs.expiration_time).pcLookup dtx.txid =
                some ⟨dtx.txid, dtx, rs.merchant_public_key,
                  (dtx.outputs.getD idx ⟨0, 0⟩).value, rs.expiration_time,
                  .confirming, none, 0⟩ := by
              unfold Db.pcCreate Db.pcLookup
              rw [find?_append_none _ _ _ hnone]
              exact List.find?_cons_of_pos _ (by simp)
            rw [hc2] at hc
            injection hc with hc
            rw [← hc]
            simp [rank]
          · exact dbMono_pcCreate db dtx rs.merchant_public_key
              ((dtx.outputs.getD idx ⟨0, 0⟩).value) rs.expiration_time

theorem receive_payment_mono (env : Env) (db : Db) (t : String) (ptx : Tx) :
    dbMono db (receive_payment env db t ptx).2 := by
  cases hr : (receive_payment env db t ptx).1 with
  | error e =>
    obtain ⟨_, hdb⟩ := receive_payment_error_db env db t ptx e hr
    rcases hdb with h1 | ⟨ch, hch, hcf, h1⟩
    · rw [h1]
      exact dbMono_refl db
    · rw [h1]
      apply dbMono_updateState
      intro c hc
      rw [hch] at hc
      injection hc with hc
      subst hc
      rw [hcf]
      simp [rank]
  | ok pid =>
    obtain ⟨ch, rs, sig, v, txC, hch, hcs, hg, hcp, hpid, hdb⟩ :=
      receive_payment_okE env db t ptx pid hr
    rw [hdb]
    have htx : ch.deposit_txid = t := pcLookup_txid db t ch hch
    have hgate : dbMono db (stateGate env db ch).2 := by
      rcases stateGate_db env db ch with h1 | ⟨hcf, h1⟩
      · rw [h1]
        exact dbMono_refl db
      · rw [h1]
        apply dbMono_updateState
        intro c hc
        rw [htx, hch] at hc
        injection hc with hc
        subst hc
        rw [hcf]
        simp [rank]
    refine dbMono_trans hgate
      (dbMono_trans (dbMono_updatePayment (stateGate env db ch).2 t txC v)
        (dbMono_of_channels rfl))

theorem close_mono (env : Env) (db : Db) (t s : String) :
    dbMono db (close env db t s).2.1 := by
  unfold close
  split
  · exact dbMono_refl db
  · split
    · exact dbMono_refl db
    · split
      · exact dbMono_refl db
      · split
        · exact dbMono_refl db
        · split
          · exact dbMono_refl db
          · exact dbMono_updateState db t .closed (fun c _ => rank_le_closed c.state)

theorem redeem_channels (db : Db) (p : String) :
    ((redeem db p).2).channels = db.channels := by
  unfold redeem
  split
  · rfl
  · split
    · rfl
    · split
      · rfl
      · rfl
      · split
        · exact pmtRedeem_channels db p
        · exact pmtRedeem_channels db p

theorem redeem_mono (db : Db) (p : String) : dbMono db (redeem db p).2 :=
  dbMono_of_channels (redeem_channels db p)

/-! ### Monotonicity of the sync pass -/

theorem syncPromote_mono (env : Env) (db : Db) (pc : Channel)
    (hpc : db.pcLookup pc.deposit_txid = some pc) :
    dbMono db (syncPromote env db pc) := by
  unfold syncPromote
  split
  · rename_i hcond
    apply dbMono_updateState
    intro c hc
    rw [hpc] at hc
    injection hc with hc
    subst hc
    rw [hcond.1]
    simp [rank]
  · exact dbMono_refl db

theorem syncPromote_local (env : Env) (db : Db) (pc : Channel) (t : String)
    (h : t ≠ pc.deposit_txid) :
    (syncPromote env db pc).pcLookup t = db.pcLookup t := by
  unfold syncPromote
  split
  · exact pcLookup_updateState_ne db _ _ t h
  · rfl

theorem syncSpendCheck_mono (env : Env) (db : Db) (pc : Channel)
    (rs : PaymentChannelRedeemScript) : dbMono db (syncSpendCheck env db pc rs) := by
  unfold syncSpendCheck
  split
  · exact dbMono_updateState db _ .closed (fun c _ => rank_le_closed c.state)
  · exact dbMono_refl db

theorem syncSpendCheck_local (env : Env) (db : Db) (pc : Channel)
    (rs : PaymentChannelRedeemScript) (t : String) (h : t ≠ pc.deposit_txid) :
    (syncSpendCheck env db pc rs).pcLookup t = db.pcLookup t := by
  unfold syncSpendCheck
  split
  · exact pcLookup_updateState_ne db _ _ t h
  · rfl

theorem syncExpiry_mono (env : Env) (now : Nat) (db : Db) (pc : Channel) :
    dbMono db (syncExpiry env now db pc).1 := by
  unfold syncExpiry
  split
  · split
    · split
      · split
        · exact dbMono_refl db
        · exact dbMono_trans (dbMono_updatePayment db _ _ _)
            (dbMono_updateState _ _ .closed (fun c _ => rank_le_closed c.state))
      · exact dbMono_refl db
    · exact dbMono_refl db
  · exact dbMono_refl db

theorem syncExpiry_local (env : Env) (now : Nat) (db : Db) (pc : Channel) (t : String)
    (h : t ≠ pc.deposit_txid) :
    ((syncExpiry env now db pc).1).pcLookup t = db.pcLookup t := by
  unfold syncExpiry
  split
  · split
    · split
      · split
        · rfl
        · rw [pcLookup_updateState_ne _ _ _ t h, pcLookup_updatePayment_ne _ _ _ _ t h]
      · rfl
    · rfl
  · rfl

theorem syncOne_mono (env : Env) (now : Nat) (db : Db) (pc : Channel)
    (hpc : db.pcLookup pc.deposit_txid = some pc) :
    dbMono db (syncOne env now db pc).1 := by
  unfold syncOne
  split
  · exact dbMono_refl db
  · split
    · split
      · split
        · exact syncPromote_mono env db pc hpc
        · exact dbMono_trans (syncPromote_mono env db pc hpc)
            (dbMono_trans (syncSpendCheck_mono env _ pc _) (syncExpiry_mono env now _ pc))
      · exact dbMono_trans (syncPromote_mono env db pc hpc) (syncExpiry_mono env now _ pc)
    · exact dbMono_trans (syncPromote_mono env db pc hpc) (syncExpiry_mono env now _ pc)

theorem syncOne_local (env : Env) (now : Nat) (db : Db) (pc : Channel) (t : String)
    (h : t ≠ pc.deposit_txid) :
    ((syncOne env now db pc).1).pcLookup t = db.pcLookup t := by
  unfold syncOne
  split
  · rfl
  · split
    · split
      · split
        · exact syncPromote_local env db pc t h
        · rw [syncExpiry_local env now _ pc t h, syncSpendCheck_local env _ pc _ t h,
            syncPromote_local env db pc t h]
      · rw [syncExpiry_local env now _ pc t h, syncPromote_local env db pc t h]
    · rw [syncExpiry_local env now _ pc t h, syncPromote_local env db pc t h]

theorem find?_self_of_pairwise :
    ∀ l : List Channel, l.Pairwise (fun a b => a.deposit_txid ≠ b.deposit_txid) →
      ∀ c ∈ l, l.find? (fun x => x.deposit_txid = c.deposit_txid) = some c
  | [], _, c, hc => by cases hc
  | x :: rest, hp, c, hc => by
    rcases List.mem_cons.mp hc with rfl | hmem
    · exact List.find?_cons_of_pos _ (by simp)
    · have hx : x.deposit_txid ≠ c.deposit_txid := (List.pairwise_cons.mp hp).1 c hmem
      rw [List.find?_cons_of_neg _ (by simp [hx])]
      exact find?_self_of_pairwise rest (List.pairwise_cons.mp hp).2 c hmem

theorem syncAll_mono (env : Env) (now : Nat) :
    ∀ (l : List Channel) (db : Db),
      (∀ pc ∈ l, db.pcLookup pc.deposit_txid = some pc) →
      l.Pairwise (fun a b => a.deposit_txid ≠ b.deposit_txid) →
      dbMono db (syncAll env now db l).1
  | [], db, _, _ => dbMono_refl db
  | pc :: rest, db, hl, hp => by
    have h1 : dbMono db (syncOne env now db pc).1 :=
      syncOne_mono env now db pc (hl pc (by simp))
    have hrest : ∀ pc' ∈ rest,
        ((syncOne env now db pc).1).pcLookup pc'.deposit_txid = some pc' := by
      intro pc' hm
      have hne : pc'.deposit_txid ≠ pc.deposit_txid := by
        have h2 := (List.pairwise_cons.mp hp).1 pc' hm
        exact fun he => h2 he.symm
      rw [syncOne_local env now db pc _ hne]
      exact hl pc' (by simp [hm])
    have hp2 := (List.pairwise_cons.mp hp).2
    rcases hs : syncOne env now db pc with ⟨db1, bs, oe⟩
    have hfst : (syncOne env now db pc).1 = db1 := by rw [hs]
    rw [hfst] at h1
    simp only [hfst] at hrest
    cases oe with
    | some e =>
      have hout : (syncAll env now db (pc :: rest)).1 = db1 := by
        simp [syncAll, hs]
      rw [hout]
      exact h1
    | none =>
      rcases hs2 : syncAll env now db1 rest with ⟨db2, bs2, r⟩
      have h2 : dbMono db1 db2 := by
        have h3 := syncAll_mono env now rest db1 hrest hp2
        rw [hs2] at h3
        exact h3
      have hout : (syncAll env now db (pc :: rest)).1 = db2 := by
        simp [syncAll, hs, hs2]
      rw [hout]
      exact dbMono_trans h1 h2

theorem sync_mono (env : Env) (now : Nat) (db : Db)
    (hnd : db.channels.Pairwise (fun a b => a.deposit_txid ≠ b.deposit_txid)) :
    dbMono db (sync env now db).1 := by
  apply syncAll_mono env now db.channels db ?_ hnd
  intro pc hm
  exact find?_self_of_pairwise db.channels hnd pc hm

end Bitserv

deriving instance DecidableEq for Except

namespace Bitserv

/-! ### Pipeline evaluation helpers -/

/-- Evaluate `receive_payment` when the pipeline reaches `checkPayment` and
fails there: the error is returned and the store is exactly the state-gate
output. -/
theorem receive_payment_eval_error (env : Env) (db : Db) (t : String) (ptx : Tx)
    (ch : Channel) (rs : PaymentChannelRedeemScript) (sig : Sig) (e : PSErr)
    (hch : db.pcLookup t = some ch)
    (hcs : checkScript env ch.merchant_pubkey ptx = .ok (rs, sig))
    (hg : (stateGate env db ch).1 = .ok ())
    (hcp : checkPayment env ch ptx rs sig = .error e) :
    (receive_payment env db t ptx).1 = .error e ∧
    (receive_payment env db t ptx).2 = (stateGate env db ch).2 := by
  rcases hsg : stateGate env db ch with ⟨g, db1⟩
  rw [hsg] at hg
  cases g with
  | error e2 => simp at hg
  | ok u =>
    constructor
    · simp [receive_payment, hch, hcs, hsg, hcp]
    · simp [receive_payment, hch, hcs, hsg, hcp]

/-- `checkPayment` returns the dust error verbatim. -/
theorem checkPayment_dust (env : Env) (ch : Channel) (ptx : Tx)
    (rs : PaymentChannelRedeemScript) (sig : Sig) (i : Nat) (e : PSErr)
    (hidx : ptx.output_index_for_address (env.hash160pk ch.merchant_pubkey) = some i)
    (hd : dustCheck i 0 ptx.outputs = some e) :
    checkPayment env ch ptx rs sig = .error e := by
  simp [checkPayment, hidx, hd]

/-- `checkPayment` rejects a non-increasing merchant amount. -/
theorem checkPayment_reject_low (env : Env) (ch : Channel) (ptx : Tx)
    (rs : PaymentChannelRedeemScript) (sig : Sig) (i : Nat)
    (hidx : ptx.output_index_for_address (env.hash160pk ch.merchant_pubkey) = some i)
    (hd : dustCheck i 0 ptx.outputs = none)
    (hle : (ptx.outputs.getD i ⟨0, 0⟩).value ≤ ch.last_payment_amount) :
    checkPayment env ch ptx rs sig =
      .error (.badTransaction "Payment must be greater than 0.") := by
  simp only [checkPayment, hidx, hd]
  rw [if_pos hle]

end Bitserv

namespace Bitserv

/-! ### Concrete fixtures used by witnesses and counterexamples -/

/-- A concrete environment: every key validates, every signature verifies,
hash160 of a key adds 100, hash160 of a script adds 200 to the merchant
key, the canonical unsigned payment splits a 100000-satoshi deposit, and
co-signing tags the txid. -/
def env0 : Env where
  validatePublicKey := fun _ => true
  verifyNoHash := fun _ _ _ => true
  verifyHash := fun _ _ _ => true
  sighash := fun _ _ => []
  hash160pk := fun k => k + 100
  hash160script := fun rs => rs.merchant_public_key + 200
  createUnsigned := fun _ rs amt fee =>
    { txid := "p" ++ toString amt
      inputs := [{ script := [] }]
      outputs := [{ payee := rs.merchant_public_key + 100, value := amt },
                  { payee := 7, value := ((100000 : Int) - amt - fee).toNat }] }
  signHalf := fun t _ => { t with txid := t.txid ++ "s" }
  checkConfirmed := fun _ => true
  lookupSpend := fun _ _ => none
  minTxFee := 1000
  minExpTime := 100

/-- The deposit transaction: one 100000-satoshi output paying the channel
script hash (201 = hash160script of merchant key 1). -/
def dtx0 : Tx := { txid := "d", inputs := [], outputs := [{ payee := 201, value := 100000 }] }

/-- A READY channel over `dtx0` with no payment yet. -/
def ch0 : Channel where
  deposit_txid := "d"
  deposit_tx := dtx0
  merchant_pubkey := 1
  amount := 100000
  expires_at := 5000
  state := .ready
  payment_tx := none
  last_payment_amount := 0

def db0 : Db := { channels := [ch0], payments := [] }

def dbEmpty : Db := { channels := [], payments := [] }

/-- The redeem script of the fixture channel. -/
def rs0 : PaymentChannelRedeemScript := ⟨1, 2, 5000⟩

/-- A well-formed scriptSig: customer DER signature + hash type, the OP_1
placeholder, and the serialized redeem script. -/
def sigScript0 : List StackItem := [.item [48, 7, 1], .op 81, .item [1, 2, 5000]]

/-- A valid first payment: 5000 to the merchant (address 101), 94000
change, fee 1000. -/
def ptx0 : Tx where
  txid := "p5000"
  inputs := [{ script := sigScript0 }]
  outputs := [{ payee := 101, value := 5000 }, { payee := 7, value := 94000 }]

/-- A valid second payment: 7500 to the merchant, 91500 change. -/
def ptx1 : Tx where
  txid := "p7500"
  inputs := [{ script := sigScript0 }]
  outputs := [{ payee := 101, value := 7500 }, { payee := 7, value := 91500 }]

/-- The fixture channel before confirmation. -/
def chC : Channel := { ch0 with state := ChannelState.confirming }

def dbC : Db := { channels := [chC], payments := [] }

/-- A payment that passes every script check but pays no merchant output. -/
def ptxBad : Tx where
  txid := "pb"
  inputs := [{ script := sigScript0 }]
  outputs := [{ payee := 9, value := 5000 }]

/-- Environment in which the blockchain reports a foreign spend of every
UTXO and no confirmations. -/
def envFS : Env := { env0 with
  lookupSpend := (fun _ _ => some "spender")
  checkConfirmed := (fun _ => false) }

/-- A READY channel with a stored payment whose expiry is imminent. -/
def chFS : Channel := { ch0 with
  payment_tx := some ptx0
  last_payment_amount := 5000
  expires_at := 50 }

def dbFS : Db := { channels := [chFS], payments := [] }

/-- A READY channel holding the first payment. -/
def dbCl : Db := { channels := [{ ch0 with payment_tx := some ptx0 }], payments := [] }

/-- A CLOSED channel still holding its last payment. -/
def chClosed : Channel := { ch0 with
  payment_tx := some ptx0
  state := ChannelState.closed }

def dbClosed : Db := { channels := [chClosed], payments := [] }

/-- A second deposit for the `open` boundary scenarios. -/
def dtx6 : Tx := { txid := "d6", inputs := [], outputs := [{ payee := 201, value := 100000 }] }

/-- The Payment row created by accepting `ptx0`. -/
def pRow : Payment where
  payment_txid := "p5000"
  deposit_txid := "d"
  payment_tx := ptx0
  amount := 5000
  redeemed := false

/-- The channel after accepting `ptx0`. -/
def chP : Channel := { ch0 with payment_tx := some ptx0, last_payment_amount := 5000 }

def dbP : Db where
  channels := [chP]
  payments := [pRow]

end Bitserv

namespace Bitserv

/-- C1: for every channel the accepted payments are strictly increasing in
merchant amount.  When the validation pipeline reaches the monotonicity
check (the channel exists, the script checks pass, the state gate lets the
payment through, the merchant output exists and the dust check passes), a
merchant-output value ≤ the channel's `last_payment_amount` is rejected
with `BadTransaction` and neither the payment table nor the channel's
payment fields change; and every accepted payment leaves
`last_payment_amount` equal to its merchant-output value, strictly above
the previous one. -/
theorem receive_payment_monotone_amounts (env : Env) (db : Db) (t : String) (ptx : Tx)
    (ch : Channel) (rs : PaymentChannelRedeemScript) (sig : Sig) (i : Nat)
    (hch : db.pcLookup t = some ch)
    (hcs : checkScript env ch.merchant_pubkey ptx = .ok (rs, sig))
    (hidx : ptx.output_index_for_address (env.hash160pk ch.merchant_pubkey) = some i) :
    ((stateGate env db ch).1 = .ok () → dustCheck i 0 ptx.outputs = none →
      (ptx.outputs.getD i ⟨0, 0⟩).value ≤ ch.last_payment_amount →
      (receive_payment env db t ptx).1 =
        .error (.badTransaction "Payment must be greater than 0.") ∧
      ((receive_payment env db t ptx).2).payments = db.payments ∧
      ∀ c', ((receive_payment env db t ptx).2).pcLookup t = some c' →
        c'.payment_tx = ch.payment_tx ∧
        c'.last_payment_amount = ch.last_payment_amount) ∧
    (∀ pid, (receive_payment env db t ptx).1 = .ok pid →
      ∃ c', ((receive_payment env db t ptx).2).pcLookup t = some c' ∧
        c'.last_payment_amount = (ptx.outputs.getD i ⟨0, 0⟩).value ∧
        ch.last_payment_amount < (ptx.outputs.getD i ⟨0, 0⟩).value) := by
  have htx : ch.deposit_txid = t := pcLookup_txid db t ch hch
  constructor
  · intro hg hd hle
    have hcp := checkPayment_reject_low env ch ptx rs sig i hidx hd hle
    obtain ⟨h1, h2⟩ := receive_payment_eval_error env db t ptx ch rs sig _ hch hcs hg hcp
    refine ⟨h1, ?_, ?_⟩
    · rw [h2]
      rcases stateGate_db env db ch with h3 | ⟨_, h3⟩ <;> rw [h3] <;> rfl
    · intro c' hc'
      rw [h2] at hc'
      rcases stateGate_db env db ch with h3 | ⟨_, h3⟩
      · rw [h3, hch] at hc'
        injection hc' with hc'
        rw [← hc']
        exact ⟨rfl, rfl⟩
      · rw [h3, pcLookup_updateState, hch] at hc'
        rw [Option.map_some', if_pos rfl] at hc'
        injection hc' with hc'
        rw [← hc']
        exact ⟨rfl, rfl⟩
  · intro pid hr
    obtain ⟨ch2, rs2, sig2, v, txC, hch2, hcs2, hg2, hcp2, hpid, hdb⟩ :=
      receive_payment_okE env db t ptx pid hr
    rw [hch] at hch2
    injection hch2 with hch2
    subst hch2
    rw [hcs] at hcs2
    injection hcs2 with hcs2
    injection hcs2 with hrs2 hsig2
    subst hrs2
    subst hsig2
    obtain ⟨i2, hidx2, hv, hlt⟩ := checkPayment_okE env ch ptx rs sig v txC hcp2
    rw [hidx] at hidx2
    injection hidx2 with hidx2
    subst hidx2
    rw [hdb, pcLookup_pmtCreate, pcLookup_updatePayment]
    rcases stateGate_db env db ch with h3 | ⟨_, h3⟩
    · rw [h3, hch, Option.map_some', if_pos htx]
      refine ⟨_, rfl, ?_, ?_⟩
      · exact hv
      · rw [← hv]
        exact hlt
    · rw [h3, pcLookup_updateState, hch, Option.map_some', if_pos rfl,
        Option.map_some']
      rw [if_pos (show ({ ch with state := ChannelState.ready } : Channel).deposit_txid = t
        from htx)]
      refine ⟨_, rfl, ?_, ?_⟩
      · exact hv
      · rw [← hv]
        exact hlt

/-- C1 witness: with the fixture channel already at `last_payment_amount`
7500 after two payments, replaying the first 5000-satoshi payment is
rejected and nothing changes. -/
theorem receive_payment_monotone_amounts_witness :
    (receive_payment env0 db0 "d" ptx0).1 = .ok "p5000" ∧
    ((((receive_payment env0 (receive_payment env0 db0 "d" ptx0).2 "d" ptx1).2).pcLookup
      "d").map Channel.last_payment_amount = some 7500) ∧
    (receive_payment env0 (receive_payment env0 (receive_payment env0 db0 "d" ptx0).2
      "d" ptx1).2 "d" ptx0).1 =
      .error (.badTransaction "Payment must be greater than 0.") := by
  refine ⟨rfl, rfl, ?_⟩
  exact ((receive_payment_monotone_amounts env0
    (receive_payment env0 (receive_payment env0 db0 "d" ptx0).2 "d" ptx1).2 "d" ptx0
    { ch0 with payment_tx := some ptx1, last_payment_amount := 7500 }
    rs0 ⟨[48, 7]⟩ 0 rfl rfl rfl).1 rfl rfl (by decide)).1

end Bitserv

namespace Bitserv

/-- C3 counterexample: a CONFIRMING channel whose deposit the blockchain
confirms is promoted to READY in the store *before* the merchant-output
check; when that later check fails, the call raises `BadTransaction` even
though a store write (the state field) has already happened. -/
theorem receive_payment_error_after_state_write :
    (receive_payment env0 dbC "d" ptxBad).1 =
      .error (.badTransaction "Payment must pay to merchant pubkey.") ∧
    (dbC.pcLookup "d").map Channel.state = some .confirming ∧
    (((receive_payment env0 dbC "d" ptxBad).2).pcLookup "d").map Channel.state =
      some .ready := ⟨rfl, rfl, rfl⟩

/-- C3 amended: if `receive_payment` raises a validation error, the payment
table is untouched and the channel's payment fields (`payment_tx`,
`last_payment_amount`) are unchanged; the channel row itself is unchanged
except possibly for the CONFIRMING → READY state promotion performed by the
state gate when the deposit is confirmed. -/
theorem receive_payment_no_partial_persistence (env : Env) (db : Db) (t : String)
    (ptx : Tx) (e : PSErr) (h : (receive_payment env db t ptx).1 = .error e) :
    ((receive_payment env db t ptx).2).payments = db.payments ∧
    (∀ c', ((receive_payment env db t ptx).2).pcLookup t = some c' →
      ∃ c, db.pcLookup t = some c ∧ c'.payment_tx = c.payment_tx ∧
        c'.last_payment_amount = c.last_payment_amount) ∧
    ((receive_payment env db t ptx).2 = db ∨
      ∃ ch, db.pcLookup t = some ch ∧ ch.state = .confirming ∧
        (receive_payment env db t ptx).2 = db.updateState t .ready) := by
  obtain ⟨h1, h2⟩ := receive_payment_error_db env db t ptx e h
  refine ⟨h1, ?_, h2⟩
  intro c' hc'
  rcases h2 with h3 | ⟨ch, hch, hcf, h3⟩
  · rw [h3] at hc'
    exact ⟨c', hc', rfl, rfl⟩
  · rw [h3, pcLookup_updateState, hch, Option.map_some'] at hc'
    injection hc' with hc'
    refine ⟨ch, hch, ?_, ?_⟩ <;> rw [← hc'] <;>
      by_cases ht : ch.deposit_txid = t <;> simp [ht]

/-- C3 amended witness: the promoted-then-rejected scenario satisfies the
amended statement. -/
theorem receive_payment_no_partial_persistence_witness :
    (receive_payment env0 dbC "d" ptxBad).1 =
      .error (.badTransaction "Payment must pay to merchant pubkey.") ∧
    ((receive_payment env0 dbC "d" ptxBad).2).payments = dbC.payments :=
  ⟨rfl, (receive_payment_no_partial_persistence env0 dbC "d" ptxBad
    (.badTransaction "Payment must pay to merchant pubkey.") rfl).1⟩

end Bitserv

namespace Bitserv

/-- C2: the foreign-spend short-circuit does not work.  In a single sync
pass over a READY channel with a stored payment, where the blockchain
reports that the deposit UTXO is already spent *and* the pre-expiry
condition holds, the channel is marked CLOSED by the foreign-spend step,
but the pre-expiry step still co-signs and broadcasts the stored payment,
because its guard reads the stale in-memory snapshot (`pc.state`) rather
than the store. -/
theorem sync_foreign_spend_still_broadcasts :
    chFS.state = .ready ∧
    chFS.payment_tx = some ptx0 ∧
    (envFS.lookupSpend chFS.deposit_txid (some 0)).isSome = true ∧
    1 + EXP_TIME_BUFFER > chFS.expires_at ∧
    (sync envFS 1 dbFS).2.1 = [{ ptx0 with txid := "p5000s" }] ∧
    ((sync envFS 1 dbFS).1.pcLookup "d").map Channel.state = some .closed :=
  ⟨rfl, rfl, rfl, by decide, rfl, rfl⟩

/-- C5: the `except TypeError` around the signature decoding in `close`
does not catch what Python 3 actually raises.  Garbled hex raises
`binascii.Error` (a `ValueError` subclass) from the hex codec, and a failed
DER parse raises `ValueError`; both escape `close` uncaught instead of
becoming `TransactionVerificationError`. -/
theorem close_decode_error_uncaught :
    (dbCl.pcLookup "d").isSome = true ∧
    (close env0 dbCl "d" "zz").1 = .error (.pyError "binascii.Error") ∧
    (close env0 dbCl "d" "00").1 = .error (.pyError "ValueError") ∧
    (close env0 dbCl "d" "3001").1 = .ok "p5000s" := ⟨rfl, rfl, rfl, rfl⟩

/-- C6 counterexample: with `minExpTime = 100` and `now = 1000`, a redeem
script expiring at 1099 = now + MIN_EXP_TIME − 1 is *accepted* by `open`
(the source checks `expiration_time < now + MIN_EXP_TIME - 1`), whereas the
claim says it must raise `TransactionVerificationError`. -/
theorem open_accepts_min_exp_minus_one :
    env0.minExpTime = 100 ∧
    (1099 : Int) = (1000 : Int) + 100 - 1 ∧
    (openChannel env0 1000 false dbEmpty dtx6 ⟨1, 2, 1099⟩).1 = .ok "d6" ∧
    (((openChannel env0 1000 false dbEmpty dtx6 ⟨1, 2, 1099⟩).2).pcLookup "d6").isSome =
      true := ⟨rfl, by decide, rfl, rfl⟩

/-- C6 amended: the boundary sits one second lower than the claim states.
When the structural checks pass, `open` raises
`TransactionVerificationError` exactly for
`expiration_time < now + MIN_EXP_TIME − 1` and accepts
`expiration_time = now + MIN_EXP_TIME − 1` and above. -/
theorem openChannel_locktime_boundary (env : Env) (now : Nat) (z : Bool) (db : Db)
    (dtx : Tx) (rs : PaymentChannelRedeemScript) (i : Nat)
    (hidx : dtx.output_index_for_address (env.hash160script rs) = some i)
    (hpk : env.validatePublicKey rs.merchant_public_key = true)
    (hnew : db.pcLookup dtx.txid = none) :
    ((rs.expiration_time : Int) < (now : Int) + (env.minExpTime : Int) - 1 →
      (openChannel env now z db dtx rs).1 =
        .error (.verificationError "Transaction locktime must be further in the future.")) ∧
    ((now : Int) + (env.minExpTime : Int) - 1 ≤ (rs.expiration_time : Int) →
      (openChannel env now z db dtx rs).1 = .ok dtx.txid) := by
  constructor
  · intro hcmp
    simp [openChannel, hidx, hpk, hnew, hcmp]
  · intro hcmp
    simp [openChannel, hidx, hpk, hnew, not_lt.mpr hcmp]

/-- C6 amended witness: the concrete boundary instances — 1099 accepted,
1098 rejected — via the amended theorem. -/
theorem openChannel_locktime_boundary_witness :
    (openChannel env0 1000 false dbEmpty dtx6 ⟨1, 2, 1099⟩).1 = .ok "d6" ∧
    (openChannel env0 1000 false dbEmpty dtx6 ⟨1, 2, 1098⟩).1 =
      .error (.verificationError "Transaction locktime must be further in the future.") :=
  ⟨(openChannel_locktime_boundary env0 1000 false dbEmpty dtx6 ⟨1, 2, 1099⟩ 0
      rfl rfl rfl).2 (by decide),
   (openChannel_locktime_boundary env0 1000 false dbEmpty dtx6 ⟨1, 2, 1098⟩ 0
      rfl rfl rfl).1 (by decide)⟩

end Bitserv

namespace Bitserv

theorem find?_map_ptxid_preserving (f : Payment → Payment)
    (hf : ∀ p, (f p).payment_txid = p.payment_txid) (t : String) :
    ∀ l : List Payment,
      (l.map f).find? (fun p => p.payment_txid = t) =
        (l.find? (fun p => p.payment_txid = t)).map f
  | [] => rfl
  | p :: rest => by
    by_cases h : p.payment_txid = t
    · rw [List.map_cons, List.find?_cons_of_pos _ (by simp [hf, h]),
        List.find?_cons_of_pos _ (by simp [h])]
      rfl
    · rw [List.map_cons, List.find?_cons_of_neg _ (by simp [hf, h]),
        List.find?_cons_of_neg _ (by simp [h])]
      exact find?_map_ptxid_preserving f hf t rest

theorem pmtLookup_txid (db : Db) (t : String) (p : Payment)
    (h : db.pmtLookup t = some p) : p.payment_txid = t := by
  have h2 := List.find?_some h
  simpa using h2

/-- The test-and-set succeeds on an unredeemed row and flips its flag. -/
theorem pmtRedeem_unredeemed (db : Db) (ptxid : String) (p : Payment)
    (hp : db.pmtLookup ptxid = some p) (hnr : p.redeemed = false) :
    (db.pmtRedeem ptxid).1 = true ∧
    ((db.pmtRedeem ptxid).2).pmtLookup ptxid = some { p with redeemed := true } := by
  have hpt : p.payment_txid = ptxid := pmtLookup_txid db ptxid p hp
  constructor
  · simp [Db.pmtRedeem, hp, hnr]
  · have h2 : (db.pmtRedeem ptxid).2 =
        { db with payments := db.payments.map (fun q =>
            if q.payment_txid = ptxid then { q with redeemed := true } else q) } := by
      simp [Db.pmtRedeem, hp, hnr]
    rw [h2]
    show (db.payments.map _).find? _ = _
    rw [find?_map_ptxid_preserving _
      (fun q => by by_cases hq : q.payment_txid = ptxid <;> simp [hq]) ptxid db.payments]
    have hp2 : db.payments.find? (fun q => q.payment_txid = ptxid) = some p := hp
    rw [hp2, Option.map_some', if_pos hpt]

/-- The test-and-set fails on an already redeemed row and leaves the store
unchanged. -/
theorem pmtRedeem_redeemed (db : Db) (ptxid : String) (p : Payment)
    (hp : db.pmtLookup ptxid = some p) (hr : p.redeemed = true) :
    db.pmtRedeem ptxid = (false, db) := by
  simp [Db.pmtRedeem, hp, hr]

/-- Evaluate `redeem` once the payment and channel rows are pinned. -/
theorem redeem_eval (db : Db) (ptxid : String) (p : Payment) (ch : Channel)
    (hp : db.pmtLookup ptxid = some p)
    (hc : db.pcLookup p.deposit_txid = some ch) :
    redeem db ptxid = (match ch.state with
      | .confirming => (.error (.channelClosed "Payment channel not ready."), db)
      | .closed => (.error (.channelClosed "Payment channel closed."), db)
      | .ready =>
        if (db.pmtRedeem ptxid).1 then (.ok p.amount, (db.pmtRedeem ptxid).2)
        else (.error (.redeemPayment "Payment already redeemed."), (db.pmtRedeem ptxid).2)) := by
  simp only [redeem, hp, hc]

/-- C7 counterexample: a payment accepted while the channel was READY, but
the channel is closed before the first `redeem` call; that first call
raises `ChannelClosed` instead of returning the stored delta amount. -/
theorem redeem_after_close_raises_channel_closed :
    (dbP.pmtLookup "p5000").map Payment.redeemed = some false ∧
    (dbP.pcLookup "d").map Channel.state = some .ready ∧
    (close env0 dbP "d" "3001").1 = .ok "p5000s" ∧
    (redeem (close env0 dbP "d" "3001").2.1 "p5000").1 =
      .error (.channelClosed "Payment channel closed.") := ⟨rfl, rfl, rfl, rfl⟩

/-- C7 amended: while the channel is READY, the first `redeem` returns the
stored delta amount and marks the row redeemed, and every later call
raises `RedeemPayment`; when the channel is not READY, `redeem` raises
`ChannelClosed` instead of returning the amount.  In every case a redeemed
row can never yield the amount again (at-most-once). -/
theorem redeem_at_most_once (db : Db) (ptxid : String) (p : Payment) (ch : Channel)
    (hp : db.pmtLookup ptxid = some p)
    (hc : db.pcLookup p.deposit_txid = some ch) :
    (ch.state = .ready → p.redeemed = false →
      (redeem db ptxid).1 = .ok p.amount ∧
      (((redeem db ptxid).2).pmtLookup ptxid).map Payment.redeemed = some true) ∧
    (p.redeemed = true → ∀ a, (redeem db ptxid).1 ≠ .ok a) ∧
    (ch.state ≠ .ready → ∃ m, (redeem db ptxid).1 = .error (.channelClosed m)) ∧
    (ch.state = .ready → p.redeemed = true →
      (redeem db ptxid).1 = .error (.redeemPayment "Payment already redeemed.")) := by
  have he := redeem_eval db ptxid p ch hp hc
  refine ⟨?_, ?_, ?_, ?_⟩
  · intro hst hnr
    obtain ⟨h1, h2⟩ := pmtRedeem_unredeemed db ptxid p hp hnr
    rw [he, hst]
    constructor
    · simp [h1]
    · simp [h1, h2]
  · intro hr a
    cases hst : ch.state with
    | confirming => rw [he, hst]; simp
    | closed => rw [he, hst]; simp
    | ready =>
      rw [he, hst, pmtRedeem_redeemed db ptxid p hp hr]
      simp
  · intro hst
    cases hs : ch.state with
    | confirming => exact ⟨"Payment channel not ready.", by rw [he, hs]⟩
    | closed => exact ⟨"Payment channel closed.", by rw [he, hs]⟩
    | ready => exact absurd hs hst
  · intro hst hr
    rw [he, hst, pmtRedeem_redeemed db ptxid p hp hr]
    rfl

/-- C7 amended witness: the fixture payment redeems once while READY and is
marked redeemed. -/
theorem redeem_at_most_once_witness :
    dbP.pmtLookup "p5000" = some pRow ∧
    dbP.pcLookup "d" = some chP ∧
    (redeem dbP "p5000").1 = .ok pRow.amount ∧
    (((redeem dbP "p5000").2).pmtLookup "p5000").map Payment.redeemed = some true := by
  have h := (redeem_at_most_once dbP "p5000" pRow chP rfl rfl).1 rfl rfl
  exact ⟨rfl, rfl, h.1, h.2⟩

end Bitserv

namespace Bitserv

/-- C4: after any sequence of `receive_payment` calls on a channel whose
store already satisfies it, Σ Payment.amount = `last_payment_amount` holds —
in particular from a fresh channel (0 = 0); and each accepted payment
creates exactly one Payment row carrying the delta over the previous
`last_payment_amount`. -/
theorem receive_payment_sum_of_deltas (env : Env) (db : Db) (t : String) (txs : List Tx)
    (h : sumPaymentsFor db t = lastPaymentFor db t) :
    sumPaymentsFor (runPayments env db t txs) t =
      lastPaymentFor (runPayments env db t txs) t ∧
    (∀ ptx pid, (receive_payment env db t ptx).1 = .ok pid →
      ∃ v txC, ((receive_payment env db t ptx).2).payments =
          db.payments ++ [⟨txC.txid, t, txC, v - lastPaymentFor db t, false⟩] ∧
        lastPaymentFor ((receive_payment env db t ptx).2) t = v) := by
  constructor
  · induction txs generalizing db h with
    | nil => exact h
    | cons ptx rest ih =>
      exact ih ((receive_payment env db t ptx).2)
        (receive_payment_sum_invariant env db t ptx h)
  · intro ptx pid hr
    obtain ⟨ch, rs, sig, v, txC, hch, hcs, hg, hcp, hpid, hdb⟩ :=
      receive_payment_okE env db t ptx pid hr
    have htx : ch.deposit_txid = t := pcLookup_txid db t ch hch
    have hlch : lastPaymentFor db t = ch.last_payment_amount := by
      unfold lastPaymentFor
      rw [hch]
    have hpg : ((stateGate env db ch).2).payments = db.payments := by
      rcases stateGate_db env db ch with h1 | ⟨_, h1⟩ <;> rw [h1] <;> rfl
    refine ⟨v, txC, ?_, ?_⟩
    · rw [hdb, hlch]
      simp [Db.pmtCreate, Db.updatePayment, hpg]
    · rw [hdb]
      unfold lastPaymentFor
      rw [pcLookup_pmtCreate, pcLookup_updatePayment]
      rcases stateGate_db env db ch with h1 | ⟨_, h1⟩
      · rw [h1, hch, Option.map_some', if_pos htx]
      · rw [h1, pcLookup_updateState, hch, Option.map_some', if_pos rfl,
          Option.map_some']
        rw [if_pos (show ({ ch with state := ChannelState.ready } : Channel).deposit_txid = t
          from htx)]

/-- C4 witness: from the fresh fixture channel, two accepted payments of
5000 and 7500 leave Σ = last (= 7500). -/
theorem receive_payment_sum_of_deltas_witness :
    sumPaymentsFor db0 "d" = lastPaymentFor db0 "d" ∧
    sumPaymentsFor (runPayments env0 db0 "d" [ptx0, ptx1]) "d" =
      lastPaymentFor (runPayments env0 db0 "d" [ptx0, ptx1]) "d" ∧
    sumPaymentsFor (runPayments env0 db0 "d" [ptx0, ptx1]) "d" = 7500 :=
  ⟨rfl, (receive_payment_sum_of_deltas env0 db0 "d" [ptx0, ptx1] rfl).1, rfl⟩

/-- C8: in a payment that has reached the dust check, the first output
below `DUST_LIMIT` (3000) triggers `BadTransaction` whose message depends
on whether that output is the merchant output; and when every output meets
the limit — in particular a merchant output of exactly `DUST_LIMIT` — the
call never produces either dust error. -/
theorem receive_payment_dust_limit (env : Env) (db : Db) (t : String) (ptx : Tx)
    (ch : Channel) (rs : PaymentChannelRedeemScript) (sig : Sig) (i : Nat)
    (hch : db.pcLookup t = some ch)
    (hcs : checkScript env ch.merchant_pubkey ptx = .ok (rs, sig))
    (hg : (stateGate env db ch).1 = .ok ())
    (hidx : ptx.output_index_for_address (env.hash160pk ch.merchant_pubkey) = some i) :
    (∀ k, List.findIdx? (fun o => o.value < DUST_LIMIT) ptx.outputs = some k →
      (receive_payment env db t ptx).1 = .error (.badTransaction
        (if k = i then "Initial payment must be greater than " ++ toString DUST_LIMIT ++ "."
         else "Payment channel balance is not large enough to make payment."))) ∧
    (List.findIdx? (fun o => o.value < DUST_LIMIT) ptx.outputs = none →
      (ptx.outputs.getD i ⟨0, 0⟩).value = DUST_LIMIT →
      (receive_payment env db t ptx).1 ≠ .error (.badTransaction
        ("Initial payment must be greater than " ++ toString DUST_LIMIT ++ ".")) ∧
      (receive_payment env db t ptx).1 ≠ .error (.badTransaction
        "Payment channel balance is not large enough to make payment.")) := by
  constructor
  · intro k hk
    have hd : dustCheck i 0 ptx.outputs = some (.badTransaction
        (if k = i then "Initial payment must be greater than " ++ toString DUST_LIMIT ++ "."
         else "Payment channel balance is not large enough to make payment.")) := by
      rw [dustCheck_eq_findIdx, hk, Option.map_some']
      split <;> rfl
    exact (receive_payment_eval_error env db t ptx ch rs sig _ hch hcs hg
      (checkPayment_dust env ch ptx rs sig i _ hidx hd)).1
  · intro hnone hexact
    have hd : dustCheck i 0 ptx.outputs = none := by
      rw [dustCheck_eq_findIdx, hnone]
      rfl
    cases hcp : checkPayment env ch ptx rs sig with
    | ok vt =>
      rcases hsg : stateGate env db ch with ⟨g, db1⟩
      rw [hsg] at hg
      cases g with
      | error e2 => simp at hg
      | ok u =>
        obtain ⟨v, txC⟩ := vt
        have h1 : (receive_payment env db t ptx).1 = .ok txC.txid := by
          simp [receive_payment, hch, hcs, hsg, hcp]
        rw [h1]
        exact ⟨fun hcon => Except.noConfusion hcon, fun hcon => Except.noConfusion hcon⟩
    | error e =>
      have h1 : (receive_payment env db t ptx).1 = .error e :=
        (receive_payment_eval_error env db t ptx ch rs sig e hch hcs hg hcp).1
      have he : e = .badTransaction "Payment must be greater than 0." ∨
          e = .badTransaction "Payment must have adequate fees." ∨
          e = .badTransaction "Invalid redeem script." ∨
          e = .badTransaction "Invalid payment channel transaction structure." := by
        simp only [checkPayment, hidx, hd] at hcp
        split at hcp
        · exact Or.inl (by injection hcp with h2; exact h2.symm)
        · split at hcp
          · exact Or.inr (Or.inl (by injection hcp with h2; exact h2.symm))
          · split at hcp
            · exact Or.inr (Or.inr (Or.inl (by injection hcp with h2; exact h2.symm)))
            · split at hcp
              · exact Or.inr (Or.inr (Or.inr (by injection hcp with h2; exact h2.symm)))
              · exact Except.noConfusion hcp
      rw [h1]
      rcases he with rfl | rfl | rfl | rfl
      · exact ⟨by decide, by decide⟩
      · exact ⟨by decide, by decide⟩
      · exact ⟨by decide, by decide⟩
      · exact ⟨by decide, by decide⟩

/-- C8 witness: a merchant output of exactly 3000 passes the dust check;
one of 2999 is rejected with the merchant-specific message. -/
theorem receive_payment_dust_limit_witness :
    (receive_payment env0 db0 "d"
      { txid := "p3000", inputs := [{ script := sigScript0 }],
        outputs := [⟨101, 3000⟩, ⟨7, 96000⟩] }).1 = .ok "p3000" ∧
    (receive_payment env0 db0 "d"
      { txid := "p2999", inputs := [{ script := sigScript0 }],
        outputs := [⟨101, 2999⟩, ⟨7, 96001⟩] }).1 =
      .error (.badTransaction "Initial payment must be greater than 3000.") := by
  constructor
  · rfl
  · have h := ((receive_payment_dust_limit env0 db0 "d"
      { txid := "p2999", inputs := [{ script := sigScript0 }],
        outputs := [⟨101, 2999⟩, ⟨7, 96001⟩] }
      ch0 rs0 ⟨[48, 7]⟩ 0 rfl rfl rfl rfl).1) 0 rfl
    simpa using h

end Bitserv

namespace Bitserv

/-- C9: under the store's primary-key invariant (distinct deposit txids),
every operation of the server — open, receive_payment, close, redeem and a
whole sync pass — moves each existing channel's state only forward along
CONFIRMING → READY → CLOSED. -/
theorem server_state_monotone (env : Env) (db : Db) (now : Nat) (z : Bool)
    (dtx : Tx) (rsO : PaymentChannelRedeemScript) (t pid sh : String) (ptx : Tx)
    (hnd : db.channels.Pairwise (fun a b => a.deposit_txid ≠ b.deposit_txid)) :
    dbMono db (openChannel env now z db dtx rsO).2 ∧
    dbMono db (receive_payment env db t ptx).2 ∧
    dbMono db (close env db t sh).2.1 ∧
    dbMono db (redeem db pid).2 ∧
    dbMono db (sync env now db).1 :=
  ⟨openChannel_mono env now z db dtx rsO, receive_payment_mono env db t ptx,
   close_mono env db t sh, redeem_mono db pid, sync_mono env now db hnd⟩

/-- C9 witness: the fixture store satisfies the key invariant and a sync
pass is monotone on it. -/
theorem server_state_monotone_witness :
    db0.channels.Pairwise (fun a b => a.deposit_txid ≠ b.deposit_txid) ∧
    dbMono db0 (sync env0 1 db0).1 :=
  ⟨by simp [db0], (server_state_monotone env0 db0 1 true dtx6 rs0 "d" "p5000" "3001" ptx0
    (by simp [db0])).2.2.2.2⟩

/-- C10: `close` never inspects the channel state.  On a channel already
CLOSED that still stores a payment, with a signature that decodes and
verifies over the ASCII hex deposit txid, `close` re-signs the stored
payment, hands it to `broadcast_tx` again, writes CLOSED again and returns
the signed transaction's hash — it does not raise `ChannelClosed`. -/
theorem close_ignores_channel_state (env : Env) (db : Db) (t sh : String)
    (ch : Channel) (ptx : Tx) (rs : PaymentChannelRedeemScript) (sig : Sig)
    (hch : db.pcLookup t = some ch)
    (hst : ch.state = .closed)
    (hpt : ch.payment_tx = some ptx)
    (hdec : decodeCloseSignature sh = .ok sig)
    (hrs : extractRedeemScript ptx = some rs)
    (hv : env.verifyHash rs.customer_public_key (strBytes t) sig = true) :
    close env db t sh = (.ok (env.signHalf ptx rs).txid, db.updateState t .closed,
      [env.signHalf ptx rs]) ∧
    (((close env db t sh).2.1).pcLookup t).map Channel.state = some .closed := by
  have h1 : close env db t sh = (.ok (env.signHalf ptx rs).txid,
      db.updateState t .closed, [env.signHalf ptx rs]) := by
    simp [close, hch, hdec, hpt, hrs, hv]
  refine ⟨h1, ?_⟩
  rw [h1]
  show ((db.updateState t .closed).pcLookup t).map Channel.state = some .closed
  rw [pcLookup_updateState, hch, Option.map_some',
    if_pos (pcLookup_txid db t ch hch), Option.map_some']

/-- C10 witness: closing the already-CLOSED fixture channel succeeds,
broadcasts the re-signed payment and returns its hash. -/
theorem close_ignores_channel_state_witness :
    dbClosed.pcLookup "d" = some chClosed ∧
    chClosed.state = .closed ∧
    close env0 dbClosed "d" "3001" = (.ok "p5000s",
      dbClosed.updateState "d" .closed, [{ ptx0 with txid := "p5000s" }]) := by
  refine ⟨rfl, rfl, ?_⟩
  exact (close_ignores_channel_state env0 dbClosed "d" "3001" chClosed ptx0 rs0
    ⟨[48, 1]⟩ rfl rfl rfl rfl rfl rfl).1

end Bitserv
